import Mathlib

/-!
Shallow embedding of the `kapkap` repository's analysis-coordination and
wallet-connection subsystems, and proofs about the specification's claims.

Part 1 embeds `src/wallet_analyzer.py` (`WalletConnectionAnalyzer`):
holder records, transaction similarity, connection weight, greedy
clustering, risk scoring, creation-time pattern detection, transaction
pattern detection and recent-transfer aggregation.  External network
lookups (BaseScan) are modelled as oracle functions supplied as inputs.

Part 2 embeds the admission / credit / refund state machine of
`src/analyzer_queue.py` (`AnalyzerQueue.add_task`, the failure branch of
`AnalyzerQueue.process_queue`) together with the credit-ledger operations
of `src/db_manager.py` (`get_user`, `use_credit`, `add_credits`).
Python floats are modelled as rationals, Python sets and dicts as lists
with decidable membership.
-/

namespace KapKap

/-! ### Holder records (`HolderRecord` of the data model) -/

/-- One holder record as consumed by `WalletConnectionAnalyzer`:
`address`, `address_type`, `balance_percentage`,
`age_info['wallet_age_days']`, the two cleaned per-chain
`total_tx_count` values, `total_recent_tx_count` and
`is_active_overall` from `activity_info`. -/
structure HolderRec where
  address : String
  address_type : String
  balance_percentage : ℚ
  wallet_age_days : ℚ
  base_tx : ℕ
  eth_tx : ℕ
  total_recent_tx_count : ℕ
  is_active_overall : Bool
deriving DecidableEq, Repr

/-- `min/max` transaction-count quotient used by `_calculate_tx_similarity`
(line 241-242 of `wallet_analyzer.py`): 0 when both counts are 0. -/
def ratioQ (x y : ℕ) : ℚ :=
  if 0 < max x y then (min x y : ℚ) / (max x y : ℚ) else 0

/-- `WalletConnectionAnalyzer._calculate_tx_similarity`. -/
def calculate_tx_similarity (w1 w2 : HolderRec) : ℚ :=
  let baseRat := ratioQ w1.base_tx w2.base_tx
  let ethRat := ratioQ w1.eth_tx w2.eth_tx
  let similarity := baseRat * (7/10) + ethRat * (3/10)
  similarity * (if w1.is_active_overall && w2.is_active_overall then 6/5 else 4/5)

/-- `WalletConnectionAnalyzer._calculate_connection_weight`. -/
def calculate_connection_weight (w1 w2 : HolderRec) : ℚ :=
  let time_diff := |w1.wallet_age_days - w2.wallet_age_days|
  let ageW : ℚ := if time_diff < 1 then 2/5 else if time_diff < 7 then 1/5 else 0
  let simW : ℚ := calculate_tx_similarity w1 w2 * (2/5)
  let balance_diff := |w1.balance_percentage - w2.balance_percentage|
  let balW : ℚ := if balance_diff < 1 then 1/5 else if balance_diff < 5 then 1/10 else 0
  ageW + simW + balW

/-! ### Greedy clustering (`_find_clusters`)

The inner loop is parameterised by the pairwise weight function and an
address projection so that claims stated over abstract weights can reuse
the exact loop structure.  `used` is the `used_wallets` set. -/

/-- Inner loop of `_find_clusters`: scan `holders[i+1:]`, comparing each
candidate against the cluster seed `w1` only; returns the addresses
appended to the cluster and the updated `used_wallets` set. -/
def growCluster (w : α → α → ℚ) (addr : α → String) (w1 : α) :
    List α → List String → List String × List String
  | [], used => ([], used)
  | w2 :: rest, used =>
    if addr w2 ∈ used then growCluster w addr w1 rest used
    else if 4/5 ≤ w w1 w2 then
      let r := growCluster w addr w1 rest (addr w2 :: used)
      (addr w2 :: r.1, r.2)
    else growCluster w addr w1 rest used

/-- Outer loop of `_find_clusters`: each unused holder seeds a cluster;
clusters of size 1 are dropped. -/
def findClustersAux (w : α → α → ℚ) (addr : α → String) :
    List α → List String → List (List String)
  | [], _ => []
  | w1 :: rest, used =>
    if addr w1 ∈ used then findClustersAux w addr rest used
    else
      let grown := growCluster w addr w1 rest (addr w1 :: used)
      let cluster := addr w1 :: grown.1
      if 1 < cluster.length then cluster :: findClustersAux w addr rest grown.2
      else findClustersAux w addr rest grown.2

/-- `_find_clusters` over an abstract weight function: greedy grouping
followed by `sorted(clusters, key=len, reverse=True)` (stable descending
sort by size). -/
def findClustersW (w : α → α → ℚ) (addr : α → String) (holders : List α) :
    List (List String) :=
  List.insertionSort (fun c1 c2 => c2.length ≤ c1.length) (findClustersAux w addr holders [])

/-- `WalletConnectionAnalyzer._find_clusters`. -/
def find_clusters (holders : List HolderRec) : List (List String) :=
  findClustersW calculate_connection_weight HolderRec.address holders

/-! ### Risk scoring (`_calculate_risk_score`, `_get_risk_level`) -/

/-- The `components` sub-dictionary of a risk score. -/
structure RiskComponents where
  cluster_score : ℚ
  density_score : ℚ
  variance_score : ℚ
deriving DecidableEq, Repr

/-- The dictionary returned by `_calculate_risk_score`. -/
structure RiskScore where
  score : ℚ
  largest_cluster_size : ℕ
  num_clusters : ℕ
  network_density : ℚ
  risk_level : String
  components : RiskComponents
deriving DecidableEq, Repr

/-- `WalletConnectionAnalyzer._get_risk_level`.  The label strings are the
exact byte sequences of the source file (the emoji literals are stored
mojibake-encoded there). -/
def get_risk_level (score : ℚ) : String :=
  if 80 ≤ score then "ðŸ›‘ Extreme Danger"
  else if 60 ≤ score then "ðŸŸ§ Elevated Threat"
  else if 40 ≤ score then "ðŸŸ¡ Moderate Concern"
  else if 20 ≤ score then "ðŸŸ¢ Minimal Risk"
  else "âœ… Negligible Threat"

/-- `WalletConnectionAnalyzer._get_default_risk_score`. -/
def get_default_risk_score : RiskScore :=
  { score := 0
    largest_cluster_size := 0
    num_clusters := 0
    network_density := 0
    risk_level := "Unknown"
    components := { cluster_score := 0, density_score := 0, variance_score := 0 } }

/-- `WalletConnectionAnalyzer._calculate_risk_score`. -/
def calculate_risk_score (clusters : List (List String)) (total_holders : ℕ) : RiskScore :=
  if total_holders = 0 then get_default_risk_score
  else
    let largest_cluster : ℕ := (clusters.map List.length).foldr max 0
    let clusterFrac : ℚ := (largest_cluster : ℚ) / (total_holders : ℚ)
    let total_connections : ℚ :=
      (clusters.map (fun c => (c.length : ℚ) * ((c.length : ℚ) - 1) / 2)).sum
    let max_possible : ℚ := (total_holders : ℚ) * ((total_holders : ℚ) - 1) / 2
    let density : ℚ := if 0 < max_possible then total_connections / max_possible else 0
    let cluster_sizes : List ℕ := clusters.map List.length
    let avg_cluster_size : ℚ :=
      if clusters.isEmpty then 0
      else (cluster_sizes.map (fun s => (s : ℚ))).sum / (clusters.length : ℚ)
    let size_variance : ℚ :=
      if clusters.isEmpty then 0
      else (cluster_sizes.map (fun s => ((s : ℚ) - avg_cluster_size) ^ 2)).sum
            / (clusters.length : ℚ)
    let cluster_score := min (clusterFrac * 40) 40
    let density_score := min (density * 30) 30
    let variance_score := min ((size_variance / (total_holders : ℚ)) * 30) 30
    let risk_score := cluster_score + density_score + variance_score
    { score := min risk_score 100
      largest_cluster_size := largest_cluster
      num_clusters := clusters.length
      network_density := density
      risk_level := get_risk_level risk_score
      components := { cluster_score := cluster_score
                      density_score := density_score
                      variance_score := variance_score } }

/-- Division that fails on a zero divisor: used to express that every
division of `_calculate_risk_score` is guarded for every input. -/
def divChecked (a b : ℚ) : Option ℚ :=
  if b = 0 then none else some (a / b)

/-- `_calculate_risk_score` with every division routed through
`divChecked`: returns `none` exactly when some division in the source
would have a zero divisor. -/
def calculate_risk_score_checked (clusters : List (List String)) (total_holders : ℕ) :
    Option RiskScore :=
  if total_holders = 0 then some get_default_risk_score
  else do
    let largest_cluster : ℕ := (clusters.map List.length).foldr max 0
    let clusterFrac ← divChecked (largest_cluster : ℚ) (total_holders : ℚ)
    let total_connections : ℚ :=
      (clusters.map (fun c => (c.length : ℚ) * ((c.length : ℚ) - 1) / 2)).sum
    let max_possible : ℚ := (total_holders : ℚ) * ((total_holders : ℚ) - 1) / 2
    let density ← if 0 < max_possible then divChecked total_connections max_possible
                  else pure 0
    let cluster_sizes : List ℕ := clusters.map List.length
    let avg_cluster_size ←
      if clusters.isEmpty then pure 0
      else divChecked (cluster_sizes.map (fun s => (s : ℚ))).sum (clusters.length : ℚ)
    let size_variance ←
      if clusters.isEmpty then pure 0
      else divChecked ((cluster_sizes.map (fun s => ((s : ℚ) - avg_cluster_size) ^ 2)).sum)
            (clusters.length : ℚ)
    let varQuot ← divChecked size_variance (total_holders : ℚ)
    let cluster_score := min (clusterFrac * 40) 40
    let density_score := min (density * 30) 30
    let variance_score := min (varQuot * 30) 30
    let risk_score := cluster_score + density_score + variance_score
    some
      { score := min risk_score 100
        largest_cluster_size := largest_cluster
        num_clusters := clusters.length
        network_density := density
        risk_level := get_risk_level risk_score
        components := { cluster_score := cluster_score
                        density_score := density_score
                        variance_score := variance_score } }

/-! ### Creation-time pattern detection (`_analyze_creation_patterns`)

The BaseScan first-transaction fetch loop is modelled by an oracle
`ts : String → Option ℤ` giving the `wallet_timestamps` map it produces:
`none` for a wallet whose timestamp could not be resolved. -/

/-- One entry of the `patterns` list built by `_analyze_creation_patterns`
(the constant `'type': 'creation'` field carried as `ptype`). -/
structure CreationPattern where
  ptype : String
  wallets : List String
  time_difference : ℚ
  combined_balance : ℚ
  timestamp1 : ℤ
  timestamp2 : ℤ
deriving DecidableEq, Repr

/-- The pair body of `_analyze_creation_patterns`: both wallets must have a
resolved timestamp and the difference in minutes must be at most 30,
otherwise no entry is produced. -/
def creation_pair (ts : String → Option ℤ) (w1 w2 : HolderRec) : Option CreationPattern :=
  match ts w1.address, ts w2.address with
  | some t1, some t2 =>
    let time_diff_minutes : ℚ := (|t1 - t2| : ℤ) / 60
    if time_diff_minutes ≤ 30 then
      some { ptype := "creation"
             wallets := [w1.address, w2.address]
             time_difference := time_diff_minutes
             combined_balance := w1.balance_percentage + w2.balance_percentage
             timestamp1 := t1
             timestamp2 := t2 }
    else none
  | _, _ => none

/-- The unsorted `patterns` list of `_analyze_creation_patterns`: the double
loop over ordered index pairs `i < j`. -/
def creation_pairs_raw (ts : String → Option ℤ) : List HolderRec → List CreationPattern
  | [] => []
  | w1 :: rest => rest.filterMap (creation_pair ts w1) ++ creation_pairs_raw ts rest

/-- The sort key relation of `_analyze_creation_patterns`:
`key=lambda x: (x['time_difference'], -x['combined_balance'])`, ascending. -/
def creationLe (p q : CreationPattern) : Prop :=
  p.time_difference < q.time_difference ∨
    (p.time_difference = q.time_difference ∧ q.combined_balance ≤ p.combined_balance)

instance : DecidableRel creationLe := fun p q => by
  unfold creationLe; exact inferInstance

instance : IsTotal CreationPattern creationLe := by
  constructor
  intro p q
  unfold creationLe
  rcases lt_trichotomy p.time_difference q.time_difference with h | h | h
  · exact Or.inl (Or.inl h)
  · rcases le_total q.combined_balance p.combined_balance with hb | hb
    · exact Or.inl (Or.inr ⟨h, hb⟩)
    · exact Or.inr (Or.inr ⟨h.symm, hb⟩)
  · exact Or.inr (Or.inl h)

instance : IsTrans CreationPattern creationLe := by
  constructor
  intro p q r hpq hqr
  unfold creationLe at *
  rcases hpq with h1 | ⟨h1, hb1⟩
  · rcases hqr with h2 | ⟨h2, _⟩
    · exact Or.inl (h1.trans h2)
    · exact Or.inl (h2 ▸ h1)
  · rcases hqr with h2 | ⟨h2, hb2⟩
    · exact Or.inl (h1 ▸ h2)
    · exact Or.inr ⟨h1.trans h2, hb2.trans hb1⟩

/-- `WalletConnectionAnalyzer._analyze_creation_patterns`, given the
resolved-timestamp oracle. -/
def analyze_creation_patterns (ts : String → Option ℤ) (holders : List HolderRec) :
    List CreationPattern :=
  List.insertionSort creationLe (creation_pairs_raw ts holders)

/-! ### Transaction pattern detection (`_analyze_transaction_patterns`) -/

/-- One entry of the similarity-pattern list (`'type': 'transaction'`). -/
structure TxPattern where
  ptype : String
  wallets : List String
  similarity : ℚ
  combined_balance : ℚ
  recent_activity : Bool
deriving DecidableEq, Repr

/-- The pair body of `_analyze_transaction_patterns`: keep pairs with
similarity strictly above `0.8`. -/
def tx_pair (w1 w2 : HolderRec) : Option TxPattern :=
  let similarity := calculate_tx_similarity w1 w2
  if 4/5 < similarity then
    some { ptype := "transaction"
           wallets := [w1.address, w2.address]
           similarity := similarity
           combined_balance := w1.balance_percentage + w2.balance_percentage
           recent_activity := 0 < w1.total_recent_tx_count ∨ 0 < w2.total_recent_tx_count }
  else none

/-- The unsorted pattern list of `_analyze_transaction_patterns`. -/
def tx_pairs_raw : List HolderRec → List TxPattern
  | [] => []
  | w1 :: rest => rest.filterMap (tx_pair w1) ++ tx_pairs_raw rest

/-- The sort relation of `_analyze_transaction_patterns`:
`key=(similarity, combined_balance)`, `reverse=True`. -/
def txGe (p q : TxPattern) : Prop :=
  q.similarity < p.similarity ∨
    (q.similarity = p.similarity ∧ q.combined_balance ≤ p.combined_balance)

instance : DecidableRel txGe := fun p q => by
  unfold txGe; exact inferInstance

/-- `WalletConnectionAnalyzer._analyze_transaction_patterns`. -/
def analyze_transaction_patterns (holders : List HolderRec) : List TxPattern :=
  List.insertionSort txGe (tx_pairs_raw holders)

/-! ### Recent direct transfers (`_analyze_recent_transactions`)

The BaseScan transaction-list fetch is modelled by an oracle
`txs : String → List RawTx` (the decoded `result` array per address). -/

/-- A decoded BaseScan transaction entry: the fields the source reads. -/
structure RawTx where
  tx_from : String
  tx_to : String
  value : ℤ
  timeStamp : ℤ
  inputData : String
  tx_hash : String
deriving DecidableEq, Repr

/-- `_is_contract_transaction`: nonempty calldata means contract call. -/
def is_contract_transaction (tx : RawTx) : Bool :=
  tx.inputData ≠ "0x"

/-- One pre-aggregation `'recent_transaction'` entry. -/
structure RecentPattern where
  wallets : List String
  value_eth : ℚ
  timestamp : ℤ
  tx_hash : String
deriving DecidableEq, Repr

/-- The aggregated `'recent_transaction'` entry per wallet pair. -/
structure AggTx where
  ptype : String
  wallets : List String
  value_eth : ℚ
  frequency : ℕ
  latest_timestamp : ℤ
deriving DecidableEq, Repr

/-- Per-holder transfer filter of `_analyze_recent_transactions`:
recent, destined to another batch holder, plain value transfer. -/
def recent_patterns_for (txs : String → List RawTx) (seven_days_ago : ℤ)
    (holder_addresses : List String) (address : String) : List RecentPattern :=
  ((txs address).filter fun tx =>
      seven_days_ago ≤ tx.timeStamp ∧ tx.tx_to.toLower ∈ holder_addresses ∧
        ¬is_contract_transaction tx).filterMap fun tx =>
    let value_eth : ℚ := (tx.value : ℚ) / 10 ^ 18
    if 0 < value_eth then
      some { wallets := [tx.tx_from.toLower, tx.tx_to.toLower]
             value_eth := value_eth
             timestamp := tx.timeStamp
             tx_hash := tx.tx_hash }
    else none

/-- `tuple(sorted(pattern['wallets']))`: the canonical pair key. -/
def pairKey (ws : List String) : List String :=
  List.insertionSort (fun a b => a ≤ b) ws

/-- Insertion-ordered list of distinct pair keys (`defaultdict` key order). -/
def groupKeys (ps : List RecentPattern) : List (List String) :=
  ps.foldl (fun acc p => if pairKey p.wallets ∈ acc then acc else acc ++ [pairKey p.wallets]) []

/-- Aggregation step of `_analyze_recent_transactions` over one pair key. -/
def aggregate_pair (ps : List RecentPattern) (k : List String) : AggTx :=
  let grp := ps.filter fun p => pairKey p.wallets = k
  { ptype := "recent_transaction"
    wallets := k
    value_eth := (grp.map RecentPattern.value_eth).sum
    frequency := grp.length
    latest_timestamp := (grp.map RecentPattern.timestamp).foldr max 0 }

/-- The sort relation of `_analyze_recent_transactions`:
`key=(frequency, value_eth)`, `reverse=True`. -/
def aggGe (p q : AggTx) : Prop :=
  q.frequency < p.frequency ∨ (q.frequency = p.frequency ∧ q.value_eth ≤ p.value_eth)

instance : DecidableRel aggGe := fun p q => by
  unfold aggGe; exact inferInstance

/-- `WalletConnectionAnalyzer._analyze_recent_transactions`. -/
def analyze_recent_transactions (txs : String → List RawTx) (seven_days_ago : ℤ)
    (holders : List HolderRec) : List AggTx :=
  let holder_addresses := holders.map fun h => h.address.toLower
  let patterns := holders.flatMap fun h =>
    recent_patterns_for txs seven_days_ago holder_addresses h.address
  List.insertionSort aggGe ((groupKeys patterns).map (aggregate_pair patterns))

/-! ### Top-level `analyze_wallet_connections`

Input holder dictionaries may lack the `address` / `address_type` keys;
a missing key raises `KeyError` at the corresponding un-guarded access
(the `address_type` filter at line 21-24, the `address` reads at lines
89/154/268).  Partiality is threaded through `Except String`; the inner
`try/except` blocks of the sub-analyses are already total in the
embedding because they swallow their exceptions. -/

/-- One raw holder dictionary as passed to `analyze_wallet_connections`:
the two keys whose absence escapes every inner `try` are optional. -/
structure RawHolder where
  address : Option String
  address_type : Option String
  balance_percentage : ℚ
  wallet_age_days : ℚ
  base_tx : ℕ
  eth_tx : ℕ
  total_recent_tx_count : ℕ
  is_active_overall : Bool
deriving DecidableEq, Repr

/-- The `user_holders` filter comprehension: reading a missing
`address_type` key raises; `Contract` and `Developer` rows are dropped. -/
def filter_users : List RawHolder → Except String (List RawHolder)
  | [] => .ok []
  | h :: rest =>
    match h.address_type with
    | none => .error "KeyError: address_type"
    | some t => do
      let rest' ← filter_users rest
      if t = "Contract" ∨ t = "Developer" then pure rest' else pure (h :: rest')

/-- Resolution of the `address` key for every filtered holder: the first
missing key raises out of the pattern loops (lines 89/154/268). -/
def resolve_recs : List RawHolder → Except String (List HolderRec)
  | [] => .ok []
  | h :: rest =>
    match h.address with
    | none => .error "KeyError: address"
    | some a => do
      let rest' ← resolve_recs rest
      pure ({ address := a
              address_type := (h.address_type).getD ""
              balance_percentage := h.balance_percentage
              wallet_age_days := h.wallet_age_days
              base_tx := h.base_tx
              eth_tx := h.eth_tx
              total_recent_tx_count := h.total_recent_tx_count
              is_active_overall := h.is_active_overall } :: rest')

/-- Entries of the returned `transaction_patterns` list, which mixes
similarity patterns with aggregated recent transfers. -/
inductive TxEntry where
  | sim (p : TxPattern)
  | recent (p : AggTx)
deriving DecidableEq, Repr

/-- The result dictionary of a successful `analyze_wallet_connections`. -/
structure ConnResult where
  risk_score : RiskScore
  clusters : List (List String)
  creation_patterns : List CreationPattern
  transaction_patterns : List TxEntry
deriving DecidableEq, Repr

/-- The `try` body of `analyze_wallet_connections`: filter, run pattern
detectors, cluster, score. -/
def analyze_core (ts : String → Option ℤ) (txs : String → List RawTx)
    (seven_days_ago : ℤ) (holders_data : List RawHolder) : Except String ConnResult := do
  let user_holders ← filter_users holders_data
  let recs ← resolve_recs user_holders
  let creation_patterns := analyze_creation_patterns ts recs
  let transaction_patterns := (analyze_transaction_patterns recs).map TxEntry.sim
  let recent_txs := (analyze_recent_transactions txs seven_days_ago recs).map TxEntry.recent
  let clusters := find_clusters recs
  let risk_score := calculate_risk_score clusters recs.length
  pure { risk_score := risk_score
         clusters := clusters
         creation_patterns := creation_patterns
         transaction_patterns := transaction_patterns ++ recent_txs }

/-- The value returned to the caller: either the result dictionary or the
empty dictionary `{}` from the `except` branch. -/
inductive ConnOut where
  | emptyDict
  | result (r : ConnResult)
deriving DecidableEq, Repr

/-- `WalletConnectionAnalyzer.analyze_wallet_connections`: the whole body
runs under `try/except Exception`, and any raise yields `{}`. -/
def analyze_wallet_connections (ts : String → Option ℤ) (txs : String → List RawTx)
    (seven_days_ago : ℤ) (holders_data : List RawHolder) : ConnOut :=
  match analyze_core ts txs seven_days_ago holders_data with
  | .ok r => .result r
  | .error _ => .emptyDict

/-! ### Part 2: admission, credits and refunds (`analyzer_queue.py`, `db_manager.py`)

Python dictionaries are association lists, Python sets are lists with
set-semantics insertion.  The Supabase `users` table is the assoc list
`ledger : List (ℤ × ℕ)` mapping `user_id` to its `credits` column. -/

/-- Association-list lookup (dictionary read). -/
def alookup [DecidableEq α] (k : α) : List (α × β) → Option β
  | [] => none
  | (k', v) :: rest => if k = k' then some v else alookup k rest

/-- Association-list write (dictionary assignment `d[k] = v`). -/
def aset [DecidableEq α] (k : α) (v : β) : List (α × β) → List (α × β)
  | [] => [(k, v)]
  | (k', v') :: rest => if k = k' then (k, v) :: rest else (k', v') :: aset k v rest

/-- Association-list delete (`d.pop(k, None)`): removes every binding of
`k`, matching dictionary semantics (a dictionary never holds a duplicate
key). -/
def aerase [DecidableEq α] (k : α) : List (α × β) → List (α × β)
  | [] => []
  | (k', v') :: rest => if k' = k then aerase k rest else (k', v') :: aerase k rest

/-- Set insertion (`s.add(x)`): no duplicate entries. -/
def insertSet [DecidableEq α] (x : α) (l : List α) : List α :=
  if x ∈ l then l else x :: l

/-- Set removal (`s.remove(x)`). -/
def removeSet [DecidableEq α] (x : α) : List α → List α
  | [] => []
  | y :: rest => if y = x then removeSet x rest else y :: removeSet x rest

/-- One queued analysis task (`task` dictionary of `add_task`; the
ISO-format admission timestamp is carried opaquely). -/
structure Task where
  token_address : String
  chat_id : ℤ
  user_id : ℤ
  analysis_type : String
  timestamp : String
deriving DecidableEq, Repr

/-- One `active_tokens` entry (the InFlightRecord of the spec). -/
structure InFlightRecord where
  users : List ℤ
  results_sent : List ℤ
  credits_deducted : List ℤ
  analysis_type : String
  chat_ids : List (ℤ × ℤ)
deriving DecidableEq, Repr

/-- The coordinator state: FIFO queue, in-flight map, result cache keys
and the external credit ledger. -/
structure QState where
  queue : List Task
  active_tokens : List (String × InFlightRecord)
  analysis_cache : List String
  ledger : List (ℤ × ℕ)
deriving DecidableEq, Repr

/-- `DatabaseManager.get_user`, reduced to the `credits` column:
`none` when the `users` row is absent. -/
def get_user (st : QState) (user_id : ℤ) : Option ℕ :=
  alookup user_id st.ledger

/-- `DatabaseManager.use_credit`: read the balance, deduct `amount` only
when the row exists and the balance covers it. -/
def use_credit (st : QState) (user_id : ℤ) (amount : ℕ) : Bool × QState :=
  match alookup user_id st.ledger with
  | none => (false, st)
  | some c =>
    if amount ≤ c then (true, { st with ledger := aset user_id (c - amount) st.ledger })
    else (false, st)

/-- `DatabaseManager.add_credits`: rejects a non-positive amount or a
missing user row, otherwise adds `amount` to the balance. -/
def add_credits (st : QState) (user_id : ℤ) (amount : ℕ) : Bool × QState :=
  if amount = 0 then (false, st)
  else
    match alookup user_id st.ledger with
    | none => (false, st)
    | some c => (true, { st with ledger := aset user_id (c + amount) st.ledger })

/-- `5 if analysis_type == "deep" else 1`. -/
def credits_for (analysis_type : String) : ℕ :=
  if analysis_type = "deep" then 5 else 1

/-- The common admission tail of `AnalyzerQueue.add_task` (lines 164-205):
credit check, debit, append the task to the queue and install a fresh
`active_tokens` record for the token (overwriting any existing one). -/
def add_task_new (st : QState) (token_address : String) (chat_id user_id : ℤ)
    (analysis_type now : String) : Bool × QState :=
  let credits_required := credits_for analysis_type
  match get_user st user_id with
  | none => (false, st)
  | some c =>
    if c < credits_required then (false, st)
    else
      match use_credit st user_id credits_required with
      | (false, st1) => (false, st1)
      | (true, st1) =>
        let task : Task :=
          { token_address := token_address, chat_id := chat_id, user_id := user_id
            analysis_type := analysis_type, timestamp := now }
        let record : InFlightRecord :=
          { users := [user_id], results_sent := [], credits_deducted := [user_id]
            analysis_type := analysis_type, chat_ids := [(user_id, chat_id)] }
        (true, { st1 with
                  queue := st1.queue ++ [task]
                  active_tokens := aset token_address record st1.active_tokens })

/-- `AnalyzerQueue.add_task` (lines 106-205).  With an in-flight record of
the same kind the requester is attached without any credit check; with a
record of a different kind a first credit check-and-debit runs (lines
133-150) and then execution falls through to the common admission tail,
which checks and debits a second time. -/
def add_task (st : QState) (token_address : String) (chat_id user_id : ℤ)
    (analysis_type now : String) : Bool × QState :=
  match alookup token_address st.active_tokens with
  | some current_analysis =>
    if current_analysis.analysis_type = analysis_type then
      if user_id ∈ current_analysis.results_sent then (true, st)
      else
        let current' :=
          { current_analysis with
              users := insertSet user_id current_analysis.users
              chat_ids := aset user_id chat_id current_analysis.chat_ids }
        (true, { st with active_tokens := aset token_address current' st.active_tokens })
    else
      let credits_required := credits_for analysis_type
      match get_user st user_id with
      | none => (false, st)
      | some c =>
        if c < credits_required then (false, st)
        else
          match use_credit st user_id credits_required with
          | (false, st1) => (false, st1)
          | (true, st1) => add_task_new st1 token_address chat_id user_id analysis_type now
  | none => add_task_new st token_address chat_id user_id analysis_type now

/-- The per-iteration re-initialisation of `process_queue` (lines
321-328): a missing `active_tokens` entry is recreated with an **empty**
`credits_deducted` set and no `chat_ids` key. -/
def ensure_record (st : QState) (task : Task) : QState :=
  match alookup task.token_address st.active_tokens with
  | some _ => st
  | none =>
    { st with
        active_tokens :=
          aset task.token_address
            { users := [task.user_id], results_sent := [], credits_deducted := []
              analysis_type := task.analysis_type, chat_ids := [] }
            st.active_tokens }

/-- The refund branch of `process_queue` (lines 403-427): only the task's
own `user_id` is considered; if it is in `credits_deducted` it is
credited back the task's cost (the boolean result of `add_credits` is
ignored by the source) and removed from the set. -/
def refund_step (st : QState) (task : Task) : QState :=
  match alookup task.token_address st.active_tokens with
  | none => st
  | some record =>
    if task.user_id ∈ record.credits_deducted then
      let credits_required := credits_for task.analysis_type
      let st1 := (add_credits st task.user_id credits_required).2
      let record' :=
        { record with credits_deducted := removeSet task.user_id record.credits_deducted }
      { st1 with active_tokens := aset task.token_address record' st1.active_tokens }
    else st

/-- The `finally` block of `process_queue` (lines 445-448): drop the
`active_tokens` entry for the task's token. -/
def finally_cleanup (st : QState) (task : Task) : QState :=
  { st with active_tokens := aerase task.token_address st.active_tokens }

/-- One `process_queue` iteration whose analysis step fails: record
re-initialisation, the refund branch, then the `finally` cleanup. -/
def process_task_fail (st : QState) (task : Task) : QState :=
  finally_cleanup (refund_step (ensure_record st task) task) task

/-- One failing drain step: pop the queue head and run the failure path. -/
def process_once_fail (st : QState) : QState :=
  match st.queue with
  | [] => st
  | task :: rest => process_task_fail { st with queue := rest } task

/-! ### Association-list lemmas -/

theorem alookup_aset_self [DecidableEq α] (k : α) (v : β) (l : List (α × β)) :
    alookup k (aset k v l) = some v := by
  induction l with
  | nil => simp [aset, alookup]
  | cons hd tl ih =>
    obtain ⟨k', v'⟩ := hd
    by_cases h : k = k'
    · subst h; simp [aset, alookup]
    · simp [aset, alookup, h, ih]

theorem alookup_aerase_self [DecidableEq α] (k : α) (l : List (α × β)) :
    alookup k (aerase k l) = none := by
  induction l with
  | nil => simp [aerase, alookup]
  | cons hd tl ih =>
    obtain ⟨k', v'⟩ := hd
    by_cases h : k' = k
    · simpa [aerase, h] using ih
    · have h2 : k ≠ k' := fun hk => h hk.symm
      simp [aerase, alookup, h, h2, ih]

theorem alookup_aset_ne [DecidableEq α] {k ka : α} (v : β) (l : List (α × β))
    (h : k ≠ ka) : alookup k (aset ka v l) = alookup k l := by
  induction l with
  | nil => simp [aset, alookup, h]
  | cons hd tl ih =>
    obtain ⟨kb, vb⟩ := hd
    by_cases h2 : ka = kb
    · subst h2; simp [aset, alookup, h, ih]
    · by_cases h3 : k = kb
      · subst h3; simp [aset, alookup, h2]
      · simp [aset, alookup, h2, h3, ih]

/-! ### Concrete scenario used by several counterexamples

Two requesters, each starting with 10 credits.  Requester 1 submits a
`quick` analysis for token `T`; requester 2 then submits a `deep`
analysis for the same token while the first is still in flight. -/

/-- Initial state: empty coordinator, requesters 1 and 2 hold 10 credits. -/
def stT0 : QState := { queue := [], active_tokens := [], analysis_cache := [],
                       ledger := [(1, 10), (2, 10)] }

/-- After requester 1's `quick` admission for token `T`. -/
def stT1 : QState := (add_task stT0 "T" 1 1 "quick" "t0").2

/-- After requester 2's `deep` admission for token `T` while requester 1's
`quick` analysis is in flight. -/
def stT2 : QState := (add_task stT1 "T" 2 2 "deep" "t1").2

/-- The credit cost of an analysis kind is positive. -/
theorem credits_for_pos (k : String) : 0 < credits_for k := by
  unfold credits_for; split <;> norm_num

/-- When the task's token has no `active_tokens` entry, the failure path
re-creates the record with an empty `credits_deducted` set and therefore
issues no refund: the ledger is untouched. -/
theorem process_task_fail_absent_ledger (st : QState) (task : Task)
    (h : alookup task.token_address st.active_tokens = none) :
    (process_task_fail st task).ledger = st.ledger := by
  unfold process_task_fail ensure_record refund_step finally_cleanup
  simp [h, alookup_aset_self]

/-- C1 counterexample.  Reachable run: requester 1 is admitted for
(`T`, quick), then requester 2 is admitted for (`T`, deep), which
overwrites the in-flight record so that `credits_deducted = {2}`.  When
requester 1's task (the queue head) fails, requester 2 sits in the
record's `credits_deducted` set yet receives no refund — its balance
stays 0 (it was even debited twice, 10 credits for a 5-credit deep
analysis) — refuting "every requester in the in-flight record's
`credits_deducted` set is credited back".  The record is removed, so
requester 1's own 1-credit debit is never refunded either: refunds (0)
do not equal debits for the wave. -/
theorem C1_counterexample :
    stT2.queue.map Task.user_id = [1, 2] ∧
    alookup "T" stT2.active_tokens =
      some { users := [2], results_sent := [], credits_deducted := [2]
             analysis_type := "deep", chat_ids := [(2, 2)] } ∧
    alookup 2 stT2.ledger = some 0 ∧
    alookup 1 stT2.ledger = some 9 ∧
    alookup 2 (process_once_fail stT2).ledger = some 0 ∧
    alookup 1 (process_once_fail stT2).ledger = some 9 ∧
    alookup "T" (process_once_fail stT2).active_tokens = none := by decide

/-- C1 as amended: on a mid-computation failure only the failed task's
own submitter is considered for a refund; if it is still in the record's
`credits_deducted` set it is credited the task's cost exactly once and
removed from the set, the in-flight record is removed, and re-entering
the failure path a second time refunds nothing further. -/
theorem C1_refund_submitter_only (st : QState) (task : Task)
    (record : InFlightRecord) (c : ℕ)
    (hrec : alookup task.token_address st.active_tokens = some record)
    (hmem : task.user_id ∈ record.credits_deducted)
    (hled : alookup task.user_id st.ledger = some c) :
    alookup task.user_id (process_task_fail st task).ledger
        = some (c + credits_for task.analysis_type) ∧
    alookup task.token_address (process_task_fail st task).active_tokens = none ∧
    (process_task_fail (process_task_fail st task) task).ledger
        = (process_task_fail st task).ledger := by
  have hpos : credits_for task.analysis_type ≠ 0 := (credits_for_pos _).ne'
  have h2 : alookup task.token_address (process_task_fail st task).active_tokens = none := by
    unfold process_task_fail finally_cleanup
    exact alookup_aerase_self _ _
  refine ⟨?_, h2, process_task_fail_absent_ledger _ _ h2⟩
  unfold process_task_fail ensure_record refund_step finally_cleanup add_credits
  simp [hrec, hmem, hled, hpos, alookup_aset_self]

/-- C1 witness: requester 1 alone submitted (`T`, quick) and its task
fails; the 1 credit is refunded (9 → 10), the record is gone, and a
re-entered failure path changes nothing. -/
theorem C1_refund_submitter_only_witness :
    alookup (1:ℤ)
        (process_task_fail stT1
          { token_address := "T", chat_id := 1, user_id := 1
            analysis_type := "quick", timestamp := "t0" }).ledger = some (9 + 1) ∧
    alookup "T"
        (process_task_fail stT1
          { token_address := "T", chat_id := 1, user_id := 1
            analysis_type := "quick", timestamp := "t0" }).active_tokens = none ∧
    (process_task_fail
        (process_task_fail stT1
          { token_address := "T", chat_id := 1, user_id := 1
            analysis_type := "quick", timestamp := "t0" })
        { token_address := "T", chat_id := 1, user_id := 1
          analysis_type := "quick", timestamp := "t0" }).ledger
      = (process_task_fail stT1
          { token_address := "T", chat_id := 1, user_id := 1
            analysis_type := "quick", timestamp := "t0" }).ledger :=
  C1_refund_submitter_only stT1
    { token_address := "T", chat_id := 1, user_id := 1
      analysis_type := "quick", timestamp := "t0" }
    { users := [1], results_sent := [], credits_deducted := [1]
      analysis_type := "quick", chat_ids := [(1, 1)] }
    9 (by decide) (by decide) (by decide)

/-- C2 counterexample.  Requester 2 submits the same (`T`, quick) while
requester 1's computation is in flight: it is admitted (`true`) but its
balance stays 10 — no debit at its own admission at all — and it is not
recorded in `credits_deducted`; this refutes "exactly one credit debit
sequence per requester, with U2's debit happening at U2's own
admission". -/
theorem C2_counterexample :
    (add_task stT1 "T" 5 2 "quick" "t1").1 = true ∧
    alookup 2 stT1.ledger = some 10 ∧
    alookup 2 (add_task stT1 "T" 5 2 "quick" "t1").2.ledger = some 10 ∧
    alookup "T" (add_task stT1 "T" 5 2 "quick" "t1").2.active_tokens =
      some { users := [2, 1], results_sent := [], credits_deducted := [1]
             analysis_type := "quick", chat_ids := [(1, 1), (2, 5)] } := by decide

/-- C2 as amended: a requester attaching to an in-flight computation of
the same kind is admitted with **no** debit (the whole ledger is
unchanged by its admission), while a requester admitted on the fresh
path is debited the kind's cost exactly once. -/
theorem C2_attach_no_debit_fresh_debit_once :
    (∀ (st : QState) (token : String) (ch uid : ℤ) (k now : String)
        (cur : InFlightRecord),
        alookup token st.active_tokens = some cur → cur.analysis_type = k →
        (add_task st token ch uid k now).1 = true ∧
          (add_task st token ch uid k now).2.ledger = st.ledger) ∧
    (∀ (st : QState) (token : String) (ch uid : ℤ) (k now : String) (c : ℕ),
        alookup token st.active_tokens = none → alookup uid st.ledger = some c →
        credits_for k ≤ c →
        (add_task st token ch uid k now).1 = true ∧
          alookup uid (add_task st token ch uid k now).2.ledger
            = some (c - credits_for k)) := by
  constructor
  · intro st token ch uid k now cur hcur htype
    unfold add_task
    by_cases hsent : uid ∈ cur.results_sent <;> simp [hcur, htype, hsent]
  · intro st token ch uid k now c hnone hled hge
    have hnlt : ¬ c < credits_for k := Nat.not_lt.mpr hge
    unfold add_task add_task_new get_user use_credit
    simp [hnone, hled, hnlt, hge, alookup_aset_self]

/-- C2 witness: attaching requester 2 to the in-flight (`T`, quick)
record leaves the ledger unchanged; requester 1's original fresh
admission debited exactly 1 credit (10 → 9). -/
theorem C2_attach_no_debit_fresh_debit_once_witness :
    ((add_task stT1 "T" 5 2 "quick" "t1").1 = true ∧
      (add_task stT1 "T" 5 2 "quick" "t1").2.ledger = stT1.ledger) ∧
    ((add_task stT0 "T" 1 1 "quick" "t0").1 = true ∧
      alookup 1 (add_task stT0 "T" 1 1 "quick" "t0").2.ledger = some (10 - 1)) :=
  ⟨C2_attach_no_debit_fresh_debit_once.1 stT1 "T" 5 2 "quick" "t1"
      { users := [1], results_sent := [], credits_deducted := [1]
        analysis_type := "quick", chat_ids := [(1, 1)] } (by decide) (by decide),
    C2_attach_no_debit_fresh_debit_once.2 stT0 "T" 1 1 "quick" "t0" 10
      (by decide) (by decide) (by decide)⟩

/-- Initial state for the C3 counterexample: requester 2 has a zero
balance. -/
def stP0 : QState := { queue := [], active_tokens := [], analysis_cache := [],
                       ledger := [(1, 10), (2, 0)] }

/-- Requester 1's (`T`, quick) admission starting from `stP0`. -/
def stP1 : QState := (add_task stP0 "T" 1 1 "quick" "t0").2

/-- C3 counterexample.  Requester 2 has balance 0, below the quick cost
of 1, yet submitting (`T`, quick) while the same kind is in flight is
admitted (`add_task` returns `true`) and mutates the in-flight record —
refuting "for every submission whose requester's balance is below the
kind's cost, Submit returns false and causes no state change". -/
theorem C3_counterexample :
    alookup 2 stP1.ledger = some 0 ∧
    credits_for "quick" = 1 ∧
    (add_task stP1 "T" 5 2 "quick" "t1").1 = true ∧
    (add_task stP1 "T" 5 2 "quick" "t1").2 ≠ stP1 := by decide

/-- C3 as amended: a submission whose requester's balance is below the
kind's cost returns `false` with no state change **provided** it does not
attach to an in-flight record of the same kind for that token (no record,
or a record of a different kind); a same-kind attach is admitted without
any balance check. -/
theorem C3_insufficient_balance_rejected (st : QState) (token : String)
    (ch uid : ℤ) (k now : String) (c : ℕ)
    (hled : alookup uid st.ledger = some c) (hlow : c < credits_for k)
    (hnoattach : ∀ cur, alookup token st.active_tokens = some cur →
      cur.analysis_type ≠ k) :
    add_task st token ch uid k now = (false, st) := by
  unfold add_task add_task_new get_user
  cases h : alookup token st.active_tokens with
  | none => simp [hled, hlow]
  | some cur => simp [hnoattach cur h, hled, hlow]

/-- C3 witness: requester 2 with balance 0 submitting a fresh quick
analysis is rejected with the state unchanged. -/
theorem C3_insufficient_balance_rejected_witness :
    add_task stP0 "X" 5 2 "quick" "t1" = (false, stP0) :=
  C3_insufficient_balance_rejected stP0 "X" 5 2 "quick" "t1" 0
    (by decide) (by decide) (by decide)

/-- C7 counterexample.  While (`T`, quick) is in flight for requester 1,
requester 2's (`T`, deep) submission is admitted — but the existing
in-flight record (users {1}, credits_deducted {1}, kind quick) is
**overwritten** by a fresh record for the deep request, refuting "leaves
the existing InFlightRecord for that token unchanged". -/
theorem C7_counterexample :
    alookup "T" stT1.active_tokens =
      some { users := [1], results_sent := [], credits_deducted := [1]
             analysis_type := "quick", chat_ids := [(1, 1)] } ∧
    (add_task stT1 "T" 2 2 "deep" "t1").1 = true ∧
    alookup "T" stT2.active_tokens =
      some { users := [2], results_sent := [], credits_deducted := [2]
             analysis_type := "deep", chat_ids := [(2, 2)] } ∧
    alookup "T" stT2.active_tokens ≠
      some { users := [1], results_sent := [], credits_deducted := [1]
             analysis_type := "quick", chat_ids := [(1, 1)] } := by decide

/-- C7 as amended: a different-kind submission for a token already in
flight is admitted as an independent queued task when the requester's
balance covers **two** debits of the kind's cost (the duplicated
admission blocks debit twice), and the existing InFlightRecord is
replaced by a fresh record holding only the new requester. -/
theorem C7_different_kind_replaces_record (st : QState) (token : String)
    (ch uid : ℤ) (k now : String) (cur : InFlightRecord) (c : ℕ)
    (hcur : alookup token st.active_tokens = some cur)
    (hk : cur.analysis_type ≠ k)
    (hled : alookup uid st.ledger = some c)
    (hc : 2 * credits_for k ≤ c) :
    (add_task st token ch uid k now).1 = true ∧
    (add_task st token ch uid k now).2.queue
      = st.queue ++ [{ token_address := token, chat_id := ch, user_id := uid
                       analysis_type := k, timestamp := now }] ∧
    alookup token (add_task st token ch uid k now).2.active_tokens
      = some { users := [uid], results_sent := [], credits_deducted := [uid]
               analysis_type := k, chat_ids := [(uid, ch)] } ∧
    alookup uid (add_task st token ch uid k now).2.ledger
      = some (c - 2 * credits_for k) := by
  have h1 : credits_for k ≤ c := le_trans (Nat.le_mul_of_pos_left _ (by norm_num)) hc
  have h2 : credits_for k ≤ c - credits_for k :=
    Nat.le_sub_of_add_le (by rw [← two_mul]; exact hc)
  have hn1 : ¬ c < credits_for k := Nat.not_lt.mpr h1
  have hn2 : ¬ c - credits_for k < credits_for k := Nat.not_lt.mpr h2
  have hsub : c - credits_for k - credits_for k = c - 2 * credits_for k := by
    rw [Nat.sub_sub, ← two_mul]
  unfold add_task add_task_new get_user use_credit
  simp [hcur, hk, hled, hn1, hn2, h1, h2, alookup_aset_self, hsub]

/-- C7 witness: with requester 2 holding 10 credits (two deep debits),
its (`T`, deep) submission while (`T`, quick) is in flight is admitted,
queued, and installs the fresh record, leaving balance 0. -/
theorem C7_different_kind_replaces_record_witness :
    (add_task stT1 "T" 2 2 "deep" "t1").1 = true ∧
    (add_task stT1 "T" 2 2 "deep" "t1").2.queue
      = stT1.queue ++ [{ token_address := "T", chat_id := 2, user_id := 2
                         analysis_type := "deep", timestamp := "t1" }] ∧
    alookup "T" (add_task stT1 "T" 2 2 "deep" "t1").2.active_tokens
      = some { users := [2], results_sent := [], credits_deducted := [2]
               analysis_type := "deep", chat_ids := [(2, 2)] } ∧
    alookup 2 (add_task stT1 "T" 2 2 "deep" "t1").2.ledger
      = some (10 - 2 * credits_for "deep") :=
  C7_different_kind_replaces_record stT1 "T" 2 2 "deep" "t1"
    { users := [1], results_sent := [], credits_deducted := [1]
      analysis_type := "quick", chat_ids := [(1, 1)] }
    10 (by decide) (by decide) (by decide) (by decide)

/-- C4: for holders [A, B, C] with weights w(A,B) = 0.9, w(B,C) = 0.9,
w(A,C) = 0.3, the greedy clustering returns exactly [[A, B]] and C stays
unclustered: C is compared against the cluster's seed A only (weight 0.3,
under the 0.8 threshold), and C's own singleton cluster is dropped. -/
theorem C4_seed_only_clustering (w : String → String → ℚ) (A B C : String)
    (hAB : A ≠ B) (hAC : A ≠ C) (hBC : B ≠ C)
    (h1 : w A B = 9/10) (h2 : w B C = 9/10) (h3 : w A C = 3/10) :
    findClustersW w id [A, B, C] = [[A, B]] := by
  norm_num [findClustersW, findClustersAux, growCluster, h1, h2, h3,
    hAB, hAC, hBC, Ne.symm hAB, Ne.symm hAC, Ne.symm hBC,
    List.insertionSort, List.orderedInsert]

/-- Concrete weight function realising the C4 scenario. -/
def wC4 : String → String → ℚ := fun a b =>
  if a = "A" ∧ b = "B" then 9/10 else if a = "B" ∧ b = "C" then 9/10 else 3/10

/-- C4 witness at the concrete weights `wC4`. -/
theorem C4_seed_only_clustering_witness :
    findClustersW wC4 id ["A", "B", "C"] = [["A", "B"]] := by
  have hBA : ("B" : String) ≠ "A" := by decide
  have hCB : ("C" : String) ≠ "B" := by decide
  have hAB : ("A" : String) ≠ "B" := by decide
  exact C4_seed_only_clustering wC4 "A" "B" "C" (by decide) (by decide) (by decide)
    (by norm_num [wC4]) (by norm_num [wC4, hBA]) (by norm_num [wC4, hCB, hAB])

/-- The min/max transaction-count quotient is non-negative. -/
theorem ratioQ_nonneg (x y : ℕ) : 0 ≤ ratioQ x y := by
  unfold ratioQ
  split
  · positivity
  · exact le_refl 0

/-- The min/max transaction-count quotient is at most 1. -/
theorem ratioQ_le_one (x y : ℕ) : ratioQ x y ≤ 1 := by
  unfold ratioQ
  split
  · rename_i h
    rw [div_le_one (by exact_mod_cast h)]
    exact_mod_cast min_le_max
  · norm_num

/-- Transaction-pattern similarity lies in [0, 6/5]: the 0.7/0.3 blend of
two ratios in [0,1] is at most 1, and the activity factor is at most
1.2. -/
theorem calculate_tx_similarity_bounds (w1 w2 : HolderRec) :
    0 ≤ calculate_tx_similarity w1 w2 ∧ calculate_tx_similarity w1 w2 ≤ 6/5 := by
  have hb0 := ratioQ_nonneg w1.base_tx w2.base_tx
  have hb1 := ratioQ_le_one w1.base_tx w2.base_tx
  have he0 := ratioQ_nonneg w1.eth_tx w2.eth_tx
  have he1 := ratioQ_le_one w1.eth_tx w2.eth_tx
  unfold calculate_tx_similarity
  split <;> constructor <;> nlinarith

/-- C5 counterexample: two equal-attribute active wallets reach weight
0.4 + 1.2·0.4 + 0.2 = 1.08 > 1, refuting w(a,b) ∈ [0,1]. -/
theorem C5_counterexample :
    calculate_connection_weight
        { address := "a", address_type := "User", balance_percentage := 1
          wallet_age_days := 10, base_tx := 5, eth_tx := 3
          total_recent_tx_count := 0, is_active_overall := true }
        { address := "b", address_type := "User", balance_percentage := 1
          wallet_age_days := 10, base_tx := 5, eth_tx := 3
          total_recent_tx_count := 0, is_active_overall := true } = 27/25 ∧
    ¬ calculate_connection_weight
        { address := "a", address_type := "User", balance_percentage := 1
          wallet_age_days := 10, base_tx := 5, eth_tx := 3
          total_recent_tx_count := 0, is_active_overall := true }
        { address := "b", address_type := "User", balance_percentage := 1
          wallet_age_days := 10, base_tx := 5, eth_tx := 3
          total_recent_tx_count := 0, is_active_overall := true } ≤ 1 := by
  constructor <;>
    norm_num [calculate_connection_weight, calculate_tx_similarity, ratioQ]

/-- C5 as amended: the connection weight of every holder pair lies in
[0, 27/25]: the age (≤ 0.4) and balance (≤ 0.2) contributions are capped,
and the similarity contribution is at most (6/5)·(2/5) = 0.48, so the sum
can exceed 1 but never 1.08. -/
theorem C5_connection_weight_bounds (w1 w2 : HolderRec) :
    0 ≤ calculate_connection_weight w1 w2 ∧
      calculate_connection_weight w1 w2 ≤ 27/25 := by
  obtain ⟨hs0, hs1⟩ := calculate_tx_similarity_bounds w1 w2
  unfold calculate_connection_weight
  dsimp only
  split_ifs <;> constructor <;> nlinarith

/-- C6: a single cluster of size 10 out of 10 holders scores
clusterScore 40, densityScore 30, varianceScore 0, total 70, and the
risk level with inclusive lower bound 60 (the source's elevated-threat
label). -/
theorem C6_fully_clustered_risk (c : List String) (h : c.length = 10) :
    calculate_risk_score [c] 10 =
      { score := 70, largest_cluster_size := 10, num_clusters := 1
        network_density := 1, risk_level := "ðŸŸ§ Elevated Threat"
        components := { cluster_score := 40, density_score := 30
                        variance_score := 0 } } := by
  norm_num [calculate_risk_score, get_risk_level, h]

/-- Ten one-letter addresses forming one fully-connected cluster. -/
def clusterTen : List String := ["a", "b", "c", "d", "e", "f", "g", "h", "i", "j"]

/-- C6 witness at a concrete ten-element cluster. -/
theorem C6_fully_clustered_risk_witness :
    calculate_risk_score [clusterTen] 10 =
      { score := 70, largest_cluster_size := 10, num_clusters := 1
        network_density := 1, risk_level := "ðŸŸ§ Elevated Threat"
        components := { cluster_score := 40, density_score := 30
                        variance_score := 0 } } :=
  C6_fully_clustered_risk clusterTen (by decide)

/-- C8: with zero holders the risk scorer returns the fixed default
structure (score 0, zero components, level "Unknown"), and every
division it performs is guarded: the checked variant, which fails on any
zero divisor, agrees with it on every input. -/
theorem C8_zero_holders_default_and_guarded :
    (∀ clusters, calculate_risk_score clusters 0 =
      { score := 0, largest_cluster_size := 0, num_clusters := 0
        network_density := 0, risk_level := "Unknown"
        components := { cluster_score := 0, density_score := 0
                        variance_score := 0 } }) ∧
    (∀ clusters n, calculate_risk_score_checked clusters n
        = some (calculate_risk_score clusters n)) := by
  constructor
  · intro clusters
    simp [calculate_risk_score, get_default_risk_score]
  · intro clusters n
    by_cases hn : n = 0
    · subst hn
      simp [calculate_risk_score, calculate_risk_score_checked]
    · have hnq : ((n : ℚ)) ≠ 0 := Nat.cast_ne_zero.mpr hn
      have hnil : clusters.isEmpty = true ∨ clusters.length ≠ 0 := by
        cases clusters <;> simp
      unfold calculate_risk_score calculate_risk_score_checked
      dsimp only
      by_cases hc : clusters.isEmpty
      · by_cases hmp : 0 < (n : ℚ) * ((n : ℚ) - 1) / 2
        · simp [hn, hnq, hc, hmp, hmp.ne', divChecked]
        · simp [hn, hnq, hc, hmp, divChecked]
      · have hlq : ((clusters.length : ℚ)) ≠ 0 :=
          Nat.cast_ne_zero.mpr (hnil.resolve_left hc)
        by_cases hmp : 0 < (n : ℚ) * ((n : ℚ) - 1) / 2
        · simp [hn, hnq, hc, hmp, hmp.ne', hlq, divChecked]
        · simp [hn, hnq, hc, hmp, hlq, divChecked]

/-- A two-element sublist of `h :: l` either starts at `h` with its second
element in `l`, or lies wholly in `l`. -/
theorem pair_sublist_cons {α : Type u_1} {a b h : α} {l : List α} :
    List.Sublist [a, b] (h :: l) ↔ (a = h ∧ b ∈ l) ∨ List.Sublist [a, b] l := by
  constructor
  · intro hs
    cases hs with
    | cons _ hs => exact Or.inr hs
    | cons₂ _ hs => exact Or.inl ⟨rfl, List.singleton_sublist.mp hs⟩
  · rintro (⟨rfl, hb⟩ | hs)
    · exact List.Sublist.cons₂ _ (List.singleton_sublist.mpr hb)
    · exact hs.cons _

/-- Membership in the unsorted creation-pattern list is exactly
membership via an ordered holder pair. -/
theorem mem_creation_pairs_raw {ts : String → Option ℤ} {l : List HolderRec}
    {p : CreationPattern} :
    p ∈ creation_pairs_raw ts l ↔
      ∃ a b, List.Sublist [a, b] l ∧ creation_pair ts a b = some p := by
  induction l with
  | nil => simp [creation_pairs_raw]
  | cons h rest ih =>
    simp only [creation_pairs_raw, List.mem_append, List.mem_filterMap, ih]
    constructor
    · rintro (⟨b, hb, he⟩ | ⟨a, b, hs, he⟩)
      · exact ⟨h, b, pair_sublist_cons.mpr (Or.inl ⟨rfl, hb⟩), he⟩
      · exact ⟨a, b, pair_sublist_cons.mpr (Or.inr hs), he⟩
    · rintro ⟨a, b, hs, he⟩
      rcases pair_sublist_cons.mp hs with ⟨rfl, hb⟩ | hs2
      · exact Or.inl ⟨b, hb, he⟩
      · exact Or.inr ⟨a, b, hs2, he⟩

/-- A produced creation pattern comes from two resolved timestamps whose
minute difference is at most 30, and records that difference. -/
theorem creation_pair_some {ts : String → Option ℤ} {a b : HolderRec}
    {p : CreationPattern} (h : creation_pair ts a b = some p) :
    ∃ t1 t2, ts a.address = some t1 ∧ ts b.address = some t2 ∧
      ((|t1 - t2| : ℤ) : ℚ) / 60 ≤ 30 ∧
      p.time_difference = ((|t1 - t2| : ℤ) : ℚ) / 60 := by
  unfold creation_pair at h
  cases h1 : ts a.address with
  | none => rw [h1] at h; cases h
  | some t1 =>
    cases h2 : ts b.address with
    | none => rw [h1, h2] at h; cases h
    | some t2 =>
      rw [h1, h2] at h
      dsimp only at h
      split_ifs at h with hle
      injection h with h
      subst h
      exact ⟨t1, t2, rfl, rfl, hle, rfl⟩

/-- C9: the creation-pattern detector retains exactly the ordered holder
pairs with resolvable timestamps at most 30 minutes apart; every entry
has `time_difference ≤ 30`; the output is sorted by (time difference
ascending, combined balance descending); and when every resolvable pair
differs by more than 30 minutes the output is empty. -/
theorem C9_creation_patterns_exact (ts : String → Option ℤ)
    (holders : List HolderRec) :
    (∀ p, p ∈ analyze_creation_patterns ts holders ↔
        ∃ a b, List.Sublist [a, b] holders ∧ creation_pair ts a b = some p) ∧
    (∀ p ∈ analyze_creation_patterns ts holders, p.time_difference ≤ 30) ∧
    List.Sorted creationLe (analyze_creation_patterns ts holders) ∧
    ((∀ a b, List.Sublist [a, b] holders →
        ∀ t1 t2, ts a.address = some t1 → ts b.address = some t2 →
          30 < ((|t1 - t2| : ℤ) : ℚ) / 60) →
      analyze_creation_patterns ts holders = []) := by
  have hmem : ∀ p, p ∈ analyze_creation_patterns ts holders ↔
      ∃ a b, List.Sublist [a, b] holders ∧ creation_pair ts a b = some p := by
    intro p
    unfold analyze_creation_patterns
    rw [List.mem_insertionSort]
    exact mem_creation_pairs_raw
  refine ⟨hmem, ?_, ?_, ?_⟩
  · intro p hp
    obtain ⟨a, b, _, he⟩ := (hmem p).mp hp
    obtain ⟨t1, t2, _, _, hle, hdiff⟩ := creation_pair_some he
    rw [hdiff]
    exact hle
  · exact List.sorted_insertionSort creationLe _
  · intro hall
    rw [List.eq_nil_iff_forall_not_mem]
    intro p hp
    obtain ⟨a, b, hs, he⟩ := (hmem p).mp hp
    obtain ⟨t1, t2, ht1, ht2, hle, _⟩ := creation_pair_some he
    exact absurd hle (not_le.mpr (hall a b hs t1 t2 ht1 ht2))

/-- Timestamp oracle for the C9 witness: wallets `w1` and `w2` resolve to
times 60 minutes apart. -/
def tsW : String → Option ℤ := fun a =>
  if a = "w1" then some 0 else if a = "w2" then some 3600 else none

/-- First holder for the C9 witness. -/
def holderW1 : HolderRec :=
  { address := "w1", address_type := "User", balance_percentage := 1
    wallet_age_days := 10, base_tx := 5, eth_tx := 3
    total_recent_tx_count := 0, is_active_overall := true }

/-- Second holder for the C9 witness. -/
def holderW2 : HolderRec :=
  { address := "w2", address_type := "User", balance_percentage := 2
    wallet_age_days := 20, base_tx := 7, eth_tx := 4
    total_recent_tx_count := 0, is_active_overall := false }

/-- C9 witness: both wallets resolve but are 60 minutes apart, so the
detector returns no entries. -/
theorem C9_creation_patterns_exact_witness :
    analyze_creation_patterns tsW [holderW1, holderW2] = [] := by
  refine (C9_creation_patterns_exact tsW [holderW1, holderW2]).2.2.2 ?_
  intro a b hs t1 t2 ht1 ht2
  rcases pair_sublist_cons.mp hs with ⟨rfl, hb⟩ | hs2
  · rw [List.mem_singleton] at hb
    subst hb
    rw [show tsW holderW1.address = some 0 from rfl] at ht1
    rw [show tsW holderW2.address = some 3600 from rfl] at ht2
    injection ht1 with ht1
    injection ht2 with ht2
    subst ht1
    subst ht2
    norm_num
  · rcases pair_sublist_cons.mp hs2 with ⟨_, hb⟩ | hs3
    · simp at hb
    · simp at hs3

/-- Holder dictionary missing its `address_type` key: reading it raises
`KeyError` out of the filter comprehension. -/
def badHolder : RawHolder :=
  { address := some "x", address_type := none, balance_percentage := 1
    wallet_age_days := 1, base_tx := 0, eth_tx := 0
    total_recent_tx_count := 0, is_active_overall := false }

/-- Fully-populated holder dictionary. -/
def goodHolder : RawHolder :=
  { address := some "x", address_type := some "User", balance_percentage := 1
    wallet_age_days := 1, base_tx := 0, eth_tx := 0
    total_recent_tx_count := 0, is_active_overall := false }

/-- C10: `analyze_wallet_connections` never propagates a raise — every
input yields either the four-field result structure (when the wrapped
body succeeds) or the empty dict (when it raises); both branches are
reachable: a holder lacking `address_type` produces `{}`, a well-formed
holder produces the structured result. -/
theorem C10_no_exception_escapes :
    (∀ (ts : String → Option ℤ) (txs : String → List RawTx) (sda : ℤ)
        (hd : List RawHolder),
      (∃ r, analyze_core ts txs sda hd = .ok r ∧
          analyze_wallet_connections ts txs sda hd = .result r) ∨
      (∃ e, analyze_core ts txs sda hd = .error e ∧
          analyze_wallet_connections ts txs sda hd = .emptyDict)) ∧
    analyze_wallet_connections (fun _ => none) (fun _ => []) 0 [badHolder]
      = .emptyDict ∧
    (∃ r, analyze_wallet_connections (fun _ => none) (fun _ => []) 0 [goodHolder]
      = .result r) := by
  refine ⟨?_, rfl, ⟨_, rfl⟩⟩
  intro ts txs sda hd
  cases h : analyze_core ts txs sda hd with
  | ok r =>
    left
    refine ⟨r, rfl, ?_⟩
    unfold analyze_wallet_connections
    rw [h]
  | error e =>
    right
    refine ⟨e, rfl, ?_⟩
    unfold analyze_wallet_connections
    rw [h]

end KapKap
